import Mathlib

/-!
Verification of the Legal Document Simplifier service (Express backend
`src/backend/server.js` plus the client controller script).

The development shallowly embeds the request handlers of the backend and
the chart-building function of the client.  External collaborators — the
generative-AI oracle, the PDF text extractor and `JSON.parse` — are
modelled as explicit function/`Except` parameters of the handlers, so each
theorem quantifies over every possible behaviour of those collaborators.
JavaScript strings are modelled as Lean `String`s, JS `undefined`/`null`
fields as `Option`, and JS string truthiness (`!s` is true for the empty
string) as `strTruthy`.
-/

/-- Truthiness of an optional JS string: `undefined`/`null` and `""` are
falsy, every other string is truthy.  Used for `query ? … : …`,
`!text` and `!analysisData.simplified` in `server.js`. -/
def strTruthy : Option String → Bool
  | none => false
  | some s => if s = "" then false else true

/-- One left-to-right pass of `responseText.replace(/```json\n?/g, '')`
(`server.js` lines 136 and 224): every occurrence of three backticks
followed by `json` and an optional greedy newline is deleted; scanning
resumes after each deleted match, as JS `String.replace` with a global
regex does. -/
def removeJsonFences : List Char → List Char
  | '`' :: '`' :: '`' :: 'j' :: 's' :: 'o' :: 'n' :: '\n' :: rest => removeJsonFences rest
  | '`' :: '`' :: '`' :: 'j' :: 's' :: 'o' :: 'n' :: rest => removeJsonFences rest
  | c :: cs => c :: removeJsonFences cs
  | [] => []

/-- One left-to-right pass of `.replace(/```\n?/g, '')` (`server.js`
lines 136 and 224): every occurrence of three backticks and an optional
greedy newline is deleted. -/
def removeFences : List Char → List Char
  | '`' :: '`' :: '`' :: '\n' :: rest => removeFences rest
  | '`' :: '`' :: '`' :: rest => removeFences rest
  | c :: cs => c :: removeFences cs
  | [] => []

/-- Model of JS `String.prototype.trim` on a character list: whitespace is
removed from the right end and then from the left end. -/
def trimChars (l : List Char) : List Char :=
  ((l.reverse.dropWhile Char.isWhitespace).reverse).dropWhile Char.isWhitespace

/-- JS `s.trim()`. -/
def jsTrim (s : String) : String := String.mk (trimChars s.data)

/-- The parse-preprocessing step of both handlers (`server.js` lines 136
and 224): `responseText.replace(/```json\n?/g, '').replace(/```\n?/g, '').trim()`. -/
def cleanText (s : String) : String :=
  jsTrim (String.mk (removeFences (removeJsonFences s.data)))

/-- An oracle reply wrapped in Markdown code fences, as in the spec's
example `"```json\n{...}\n```"`. -/
def fenceWrapped (s : String) : String := "```json\n" ++ s ++ "\n```"

/-- JS `s.substring(0, n)`: the first `n` characters of `s`. -/
def jsSubstring (s : String) (n : Nat) : String := String.mk (s.data.take n)

/-- Fixed part of the prompt template before the interpolated `${text}`
(`server.js` lines 44-47). -/
def promptHead : String :=
  "You are an expert legal document analyst. Analyze the following legal text and provide a comprehensive breakdown.\n\nLEGAL TEXT:\n\""

/-- Fixed part of the prompt template between the interpolated `${text}`
and the interpolated query block (`server.js` lines 47-49). -/
def promptAfterText : String := "\"\n\n"

/-- The interpolation `${query ? `SPECIFIC QUESTION: "${query}"` : ''}`
of `server.js` line 49, including JS truthiness of `query`. -/
def queryBlock : Option String → String
  | none => ""
  | some q => if q = "" then "" else "SPECIFIC QUESTION: \"" ++ q ++ "\""

/-- The fixed JSON-schema block requested from the oracle (`server.js`
lines 53-83), verbatim. -/
def promptJsonFormat : String :=
  "\x7b\n  \"simplified\": \"A clear, plain English explanation of the document's main points, preserving all important details and legal implications. Break down complex clauses into understandable language.\",\n  \"riskAssessment\": \x7b\n    \"overallRisk\": \"low/medium/high\",\n    \"riskFactors\": [\n      \x7b\n        \"clause\": \"Specific clause or section\",\n        \"risk\": \"high/medium/low\",\n        \"explanation\": \"Why this is risky and what it means for the user\",\n        \"impact\": \"Financial/Legal/Operational impact description\"\n      \x7d\n    ]\n  \x7d,\n  \"keyTerms\": [\n    \x7b\n      \"term\": \"Legal term or phrase\",\n      \"definition\": \"Simple explanation of what this means\",\n      \"importance\": \"Why this term matters\"\n    \x7d\n  ],\n  \"actionItems\": [\n    \x7b\n      \"action\": \"What the user should do\",\n      \"priority\": \"high/medium/low\",\n      \"deadline\": \"When this should be done (if applicable)\"\n    \x7d\n  ],\n  \"warnings\": [\n    \"Important warnings or red flags the user should be aware of\"\n  ]\n\x7d"

/-- Fixed tail of the prompt template after the query block (`server.js`
lines 50-93): the JSON format request and the numbered guidelines. -/
def promptTail : String :=
  "\n\nPlease provide a detailed analysis in the following JSON format:\n\n" ++ promptJsonFormat ++ "\n\nImportant guidelines:\n1. Focus on making complex legal language accessible to non-lawyers\n2. Highlight potential risks and their real-world implications\n3. Identify terms that could be problematic or unfair\n4. Provide actionable advice where appropriate\n5. Be objective but help users understand what they're agreeing to\n6. If analyzing a specific question, prioritize that in your response\n\nRespond ONLY with valid JSON - no additional text or formatting."

/-- The backtick template literal of `buildLegalAnalysisPrompt`
(`server.js` lines 43-96): a pure function of `(text, query)`. -/
def buildLegalAnalysisPrompt (text : String) (query : Option String) : String :=
  promptHead ++ text ++ promptAfterText ++ queryBlock query ++ promptTail

/-- One entry of `riskAssessment.riskFactors` in the oracle's reply
(spec §3, rendered by the client). -/
structure RiskFactor where
  clause : String
  risk : String
  explanation : String
  impact : String
deriving DecidableEq, Repr

/-- The `riskAssessment` object of the oracle's reply. -/
structure RiskAssessment where
  overallRisk : String
  riskFactors : List RiskFactor
deriving DecidableEq, Repr

/-- One entry of `keyTerms`. -/
structure KeyTerm where
  term : String
  definition : String
  importance : String
deriving DecidableEq, Repr

/-- One entry of `actionItems`. -/
structure ActionItem where
  action : String
  priority : String
  deadline : Option String
deriving DecidableEq, Repr

/-- The object produced by `JSON.parse` on the cleaned oracle reply, with
every top-level field optional (the code never validates more than
`simplified` and `riskAssessment`).  `simplified = some ""` models a
present-but-empty string, which is falsy in JS. -/
structure AnalysisData where
  simplified : Option String
  riskAssessment : Option RiskAssessment
  keyTerms : Option (List KeyTerm)
  actionItems : Option (List ActionItem)
  warnings : Option (List String)
deriving DecidableEq, Repr

/-- The `metadata` object attached to a success response (`server.js`
lines 156-160 and 236-241). -/
structure Metadata where
  timestamp : String
  textLength : Nat
  hasQuery : Option Bool
  fileName : Option String
  fileSize : Option Nat
deriving DecidableEq, Repr

/-- An HTTP reply of the service: either `res.status(s).json({error, message})`
or a 200 `res.json({...analysisData, metadata})`. -/
inductive HttpResult where
  | err (status : Nat) (error : String) (message : String)
  | ok (data : AnalysisData) (metadata : Metadata)
deriving DecidableEq, Repr

/-- The HTTP status code of a reply (200 for the success shape). -/
def HttpResult.status : HttpResult → Nat
  | .err s _ _ => s
  | .ok _ _ => 200

/-- A 400-class (caller-fixable) status, as in spec §4.1 and §7. -/
def is400Class (n : Nat) : Prop := 400 ≤ n ∧ n < 500

/-- The part of `POST /analyze` after input validation (`server.js`
lines 126-172): prompt construction, the oracle call (`gen`, whose
`Except.error` models a thrown/network failure caught by the outer
`catch`), the clean-and-parse step (`parse` models `JSON.parse`,
returning `none` when it throws), the structure check and the success
reply. -/
def analyzeAfterValidation (text : String) (query : Option String)
    (gen : String → Except Unit String) (parse : String → Option AnalysisData)
    (now : String) : HttpResult :=
  match gen (buildLegalAnalysisPrompt text query) with
  | .error _ =>
      .err 500 "Internal Server Error" "An unexpected error occurred while analyzing the document"
  | .ok responseText =>
    match parse (cleanText responseText) with
    | none => .err 500 "API Processing Error" "Failed to parse analysis from AI service"
    | some analysisData =>
      if !(strTruthy analysisData.simplified) || analysisData.riskAssessment.isNone then
        .err 500 "API Processing Error" "Invalid analysis response structure"
      else
        .ok analysisData
          { timestamp := now, textLength := text.length,
            hasQuery := some (strTruthy query), fileName := none, fileSize := none }

/-- The `POST /analyze` handler (`server.js` lines 106-173): `!text`
and the 10000-character bound are checked before anything else. -/
def analyzeHandler (text : Option String) (query : Option String)
    (gen : String → Except Unit String) (parse : String → Option AnalysisData)
    (now : String) : HttpResult :=
  if !(strTruthy text) then
    .err 400 "Validation Error" "Text content is required"
  else
    match text with
    | none => .err 400 "Validation Error" "Text content is required"
    | some t =>
      if t.length > 10000 then
        .err 400 "Validation Error" "Text must be less than 10,000 characters"
      else
        analyzeAfterValidation t query gen parse now

/-- The multer-provided `req.file` record. -/
structure FileInfo where
  originalname : String
  mimetype : String
  size : Nat
  content : String

/-- Per-request resource state of `POST /upload`: whether the temporary
file written by multer still exists, and whether the generation oracle
has been invoked. -/
structure UploadSt where
  fileExists : Bool
  oracleCalled : Bool
deriving DecidableEq, Repr

/-- Text extraction of `server.js` lines 189-198: PDF uploads delegate to
the external extractor (`pdfExtract`, whose `Except.error` models a
thrown `pdf-parse` failure), `text/plain` uploads read the file verbatim,
any other type leaves `extractedText` as `''`. -/
def extractText (f : FileInfo) (pdfExtract : Except Unit String) : Except Unit String :=
  if f.mimetype = "application/pdf" then pdfExtract
  else if f.mimetype = "text/plain" then .ok f.content
  else .ok ""

/-- `fs.unlinkSync(req.file.path)`: deletes the file, or throws (ENOENT)
when it does not exist; the `Except.error` carries the state at the
throw point. -/
def unlinkSync (st : UploadSt) : Except UploadSt UploadSt :=
  if st.fileExists then .ok { st with fileExists := false } else .error st

/-- The `try` body of `POST /upload` (`server.js` lines 179-245), as a
state-passing computation; `Except.error st` means the body threw with
resource state `st`, to be handled by the surrounding `catch`. -/
def uploadBody (file : Option FileInfo) (query : Option String)
    (pdfExtract : Except Unit String) (gen : String → Except Unit String)
    (parse : String → Option AnalysisData) (now : String) (st : UploadSt) :
    Except UploadSt (HttpResult × UploadSt) :=
  match file with
  | none => .ok (.err 400 "Validation Error" "No file uploaded", st)
  | some f =>
    match extractText f pdfExtract with
    | .error _ => .error st
    | .ok extractedText =>
      match unlinkSync st with
      | .error st1 => .error st1
      | .ok st1 =>
        if jsTrim extractedText = "" then
          .ok (.err 400 "Processing Error" "Could not extract text from the uploaded file", st1)
        else
          let extractedText :=
            if extractedText.length > 10000 then jsSubstring extractedText 10000 ++ "..."
            else extractedText
          let st2 := { st1 with oracleCalled := true }
          match gen (buildLegalAnalysisPrompt extractedText query) with
          | .error _ => .error st2
          | .ok responseText =>
            match parse (cleanText responseText) with
            | none => .ok (.err 500 "API Processing Error" "Failed to parse analysis from AI service", st2)
            | some analysisData =>
              .ok (.ok analysisData
                { timestamp := now, fileName := some f.originalname,
                  fileSize := some f.size, textLength := extractedText.length,
                  hasQuery := none }, st2)

/-- The `POST /upload` handler (`server.js` lines 178-259): the `try`
body plus its `catch`, which deletes the temporary file when it still
exists and replies 500.  The initial state has the temporary file exactly
when a file was attached. -/
def uploadHandler (file : Option FileInfo) (query : Option String)
    (pdfExtract : Except Unit String) (gen : String → Except Unit String)
    (parse : String → Option AnalysisData) (now : String) : HttpResult × UploadSt :=
  let st0 : UploadSt := { fileExists := file.isSome, oracleCalled := false }
  match uploadBody file query pdfExtract gen parse now st0 with
  | .ok (r, st) => (r, st)
  | .error st =>
    let st1 := if st.fileExists then { st with fileExists := false } else st
    (.err 500 "Internal Server Error" "An unexpected error occurred while processing the file", st1)

/-- An error reaching the error-handling middleware of `server.js`
lines 272-288: either a `multer.MulterError` with its `code`, or a plain
`Error` with its message (the shape thrown by the `fileFilter`). -/
inductive UploadError where
  | multerError (code : String)
  | plainError (message : String)

/-- The multer `fileFilter` predicate (`server.js` lines 18-24). -/
def fileFilterAccepts (mimetype : String) : Bool :=
  mimetype = "application/pdf" || mimetype = "text/plain"

/-- The transport-layer checks multer performs before the `/upload`
handler runs (`server.js` lines 15-25): the `fileFilter` rejects foreign
media types with a plain `Error`, and streaming past the 10 MB
`fileSize` limit aborts with a `MulterError` of code `LIMIT_FILE_SIZE`.
The `fileFilter` runs when the file part is encountered, before the size
limit can trigger. -/
def multerFileCheck (mimetype : String) (size : Nat) : Except UploadError Unit :=
  if !(fileFilterAccepts mimetype) then
    .error (.plainError "Only PDF and text files are allowed")
  else if size > 10 * 1024 * 1024 then
    .error (.multerError "LIMIT_FILE_SIZE")
  else
    .ok ()

/-- The error-handling middleware (`server.js` lines 272-288): only a
`MulterError` with code `LIMIT_FILE_SIZE` gets the 400 `File Error`
reply; every other error becomes a 500 `Internal Server Error`. -/
def errorMiddleware : UploadError → HttpResult
  | .multerError code =>
      if code = "LIMIT_FILE_SIZE" then
        .err 400 "File Error" "File size too large. Maximum size is 10MB."
      else
        .err 500 "Internal Server Error" "An unexpected error occurred"
  | .plainError _ => .err 500 "Internal Server Error" "An unexpected error occurred"

/-- The transport-layer outcome of a `POST /upload` carrying a file:
`some r` when multer rejects the request and the middleware replies `r`,
`none` when the request reaches the route handler. -/
def uploadTransport (mimetype : String) (size : Nat) : Option HttpResult :=
  match multerFileCheck mimetype size with
  | .error e => some (errorMiddleware e)
  | .ok _ => none

/-- Accumulator for `riskCounts` / `actionCounts` in the client's
`updateChartsWithRiskData` (part_000 lines 251-316). -/
structure ChartCounts where
  high : Nat
  medium : Nat
  low : Nat
deriving DecidableEq, Repr

/-- `counts[key]++` in JS: a key other than the three tracked levels
creates an unrelated NaN property and leaves the three counts unchanged. -/
def bumpCount (c : ChartCounts) (key : String) : ChartCounts :=
  if key = "high" then { c with high := c.high + 1 }
  else if key = "medium" then { c with medium := c.medium + 1 }
  else if key = "low" then { c with low := c.low + 1 }
  else c

/-- The `riskCounts` fold of `updateChartsWithRiskData` (part_000
lines 253-256). -/
def riskCounts (factors : List RiskFactor) : ChartCounts :=
  factors.foldl (fun c f => bumpCount c f.risk) ⟨0, 0, 0⟩

/-- The `data` array of the bar chart (part_000 line 267):
`[riskCounts.high, riskCounts.medium, riskCounts.low]`. -/
def violationsChartData (factors : List RiskFactor) : List Nat :=
  [(riskCounts factors).high, (riskCounts factors).medium, (riskCounts factors).low]

/-- The `actionCounts` fold (part_000 lines 284-289), guarded by
`if (data.actionItems)`: an absent list leaves all counts at zero. -/
def actionCounts (items : Option (List ActionItem)) : ChartCounts :=
  match items with
  | none => ⟨0, 0, 0⟩
  | some l => l.foldl (fun c a => bumpCount c a.priority) ⟨0, 0, 0⟩

/-- The `data` array of the donut chart (part_000 line 298):
`[actionCounts.high, actionCounts.medium, actionCounts.low]`. -/
def penaltyChartData (items : Option (List ActionItem)) : List Nat :=
  [(actionCounts items).high, (actionCounts items).medium, (actionCounts items).low]

/-- JS `s.startsWith(p)`. -/
def jsStartsWith (s p : String) : Bool := p.data.isPrefixOf s.data

/-- The final catch-all middleware (`server.js` lines 291-299): a
structured 404 for paths under `/api`, `/analyze` or `/upload`, and —
the implicit branch — no reply at all for every other unmatched path. -/
def notFoundHandler (method : String) (path : String) : Option HttpResult :=
  if jsStartsWith path "/api" || jsStartsWith path "/analyze" || jsStartsWith path "/upload" then
    some (.err 404 "Not Found" ("Route " ++ method ++ " " ++ path ++ " not found"))
  else
    none

/-! Theorems.  Each claim of the specification gets one theorem below;
helper lemmas precede the claim theorems they serve. -/

theorem length_string_mk (l : List Char) : (String.mk l).length = l.length := rfl

/-- C3: on `POST /analyze`, an absent or empty `text` is rejected with the
400 `Validation Error` reply (the code-level rendering of the spec's
`ValidationError`), a `text` longer than 10000 characters is rejected
with the 400 length reply, and every text of length in [1,10000] passes
validation and proceeds to prompt building (`analyzeAfterValidation`). -/
theorem analyze_validation (text : Option String) (query : Option String)
    (gen : String → Except Unit String) (parse : String → Option AnalysisData)
    (now : String) :
    ((text = none ∨ text = some "") →
      analyzeHandler text query gen parse now =
        .err 400 "Validation Error" "Text content is required") ∧
    (∀ t, text = some t → t.length > 10000 →
      analyzeHandler text query gen parse now =
        .err 400 "Validation Error" "Text must be less than 10,000 characters") ∧
    (∀ t, text = some t → 1 ≤ t.length → t.length ≤ 10000 →
      analyzeHandler text query gen parse now =
        analyzeAfterValidation t query gen parse now) := by
  refine ⟨?_, ?_, ?_⟩
  · rintro (rfl | rfl) <;> rfl
  · rintro t rfl h
    have ht : t ≠ "" := by
      intro h0
      rw [h0] at h
      exact absurd h (by decide)
    simp [analyzeHandler, strTruthy, ht, h]
  · rintro t rfl h1 h2
    have ht : t ≠ "" := by
      intro h0
      rw [h0] at h1
      exact absurd h1 (by decide)
    simp [analyzeHandler, strTruthy, ht, Nat.not_lt.mpr h2]

theorem analyze_validation_witness :
    ((some "" : Option String) = none ∨ (some "" : Option String) = some "") ∧
    analyzeHandler (some "") none (fun _ => .error ()) (fun _ => none) "now" =
      .err 400 "Validation Error" "Text content is required" ∧
    ((String.mk (List.replicate 10001 'a')).length > 10000 ∧
      analyzeHandler (some (String.mk (List.replicate 10001 'a'))) none
          (fun _ => .error ()) (fun _ => none) "now" =
        .err 400 "Validation Error" "Text must be less than 10,000 characters") ∧
    (1 ≤ ("hi" : String).length ∧ ("hi" : String).length ≤ 10000 ∧
      analyzeHandler (some "hi") none (fun _ => .error ()) (fun _ => none) "now" =
        analyzeAfterValidation "hi" none (fun _ => .error ()) (fun _ => none) "now") := by
  have hlen : (String.mk (List.replicate 10001 'a')).length > 10000 := by
    rw [length_string_mk, List.length_replicate]
    decide
  refine ⟨Or.inr rfl, (analyze_validation _ _ _ _ _).1 (Or.inr rfl), ⟨hlen, ?_⟩, ?_⟩
  · exact (analyze_validation _ _ _ _ _).2.1 _ rfl hlen
  · exact ⟨by decide, by decide, (analyze_validation _ _ _ _ _).2.2 _ rfl (by decide) (by decide)⟩

/-- C10: the final catch-all middleware replies with the structured 404
body exactly for paths starting with `/api`, `/analyze` or `/upload`;
for every other unmatched path it falls through its `if` without calling
`res.*` at all, so the client receives no reply (`none`). -/
theorem notFound_behavior (method path : String) :
    (jsStartsWith path "/api" = false → jsStartsWith path "/analyze" = false →
      jsStartsWith path "/upload" = false →
      notFoundHandler method path = none) ∧
    ((jsStartsWith path "/api" || jsStartsWith path "/analyze" ||
        jsStartsWith path "/upload") = true →
      notFoundHandler method path =
        some (.err 404 "Not Found" ("Route " ++ method ++ " " ++ path ++ " not found"))) := by
  constructor
  · intro h1 h2 h3
    simp [notFoundHandler, h1, h2, h3]
  · intro h
    simp [notFoundHandler, h]

theorem notFound_behavior_witness :
    (jsStartsWith "/foo" "/api" = false ∧
      notFoundHandler "GET" "/foo" = none) ∧
    ((jsStartsWith "/api/x" "/api" || jsStartsWith "/api/x" "/analyze" ||
        jsStartsWith "/api/x" "/upload") = true ∧
      notFoundHandler "GET" "/api/x" =
        some (.err 404 "Not Found" ("Route " ++ "GET" ++ " " ++ "/api/x" ++ " not found"))) :=
  ⟨⟨by decide, (notFound_behavior "GET" "/foo").1 (by decide) (by decide) (by decide)⟩,
   ⟨by decide, (notFound_behavior "GET" "/api/x").2 (by decide)⟩⟩

/-- C8: `buildLegalAnalysisPrompt` is a pure function (two invocations on
identical arguments are definitionally the same string); its result is a
fixed template around the literal text, and around the literal query when
a (truthy) query is supplied.  A supplied empty query is falsy in JS and
produces the no-query template, in which case "contains the query"
holds vacuously. -/
theorem buildPrompt_pure_and_embeds (text : String) :
    (∀ query, buildLegalAnalysisPrompt text query = buildLegalAnalysisPrompt text query) ∧
    (buildLegalAnalysisPrompt text none =
      promptHead ++ text ++ (promptAfterText ++ promptTail)) ∧
    (∀ q, q ≠ "" →
      buildLegalAnalysisPrompt text (some q) =
        promptHead ++ text ++ (promptAfterText ++ "SPECIFIC QUESTION: \"") ++ q ++
          ("\"" ++ promptTail)) := by
  refine ⟨fun _ => rfl, ?_, ?_⟩
  · simp [buildLegalAnalysisPrompt, queryBlock, String.append_assoc]
  · intro q hq
    simp [buildLegalAnalysisPrompt, queryBlock, hq, String.append_assoc]

theorem buildPrompt_pure_and_embeds_witness :
    ("Q1" : String) ≠ "" ∧
    buildLegalAnalysisPrompt "T1" (some "Q1") =
      promptHead ++ "T1" ++ (promptAfterText ++ "SPECIFIC QUESTION: \"") ++ "Q1" ++
        ("\"" ++ promptTail) :=
  ⟨by decide, (buildPrompt_pure_and_embeds "T1").2.2 "Q1" (by decide)⟩

/-- C4 counterexample: a file whose declared type is `image/png` (and
whose size is small) is rejected through the `fileFilter`'s plain
`Error`, which the error middleware does not recognise as a
`MulterError`, so the reply is a 500 `Internal Server Error` — not the
400-class response the claim asserts. -/
theorem upload_wrong_type_not_400 :
    uploadTransport "image/png" 100 =
      some (.err 500 "Internal Server Error" "An unexpected error occurred") ∧
    ¬ is400Class
        (HttpResult.status (.err 500 "Internal Server Error" "An unexpected error occurred")) := by
  refine ⟨rfl, ?_⟩
  simp [is400Class, HttpResult.status]

/-- C4 amended: a wrong declared media type is rejected before the
handler runs, but with a 500 `Internal Server Error` structured reply
(the `fileFilter` throws a plain `Error`, which the middleware does not
map to a 400); only the 10 MB size limit produces the 400-class
`File Error` reply; an allowed type within the limit reaches the
handler. -/
theorem upload_transport_amended (mimetype : String) (size : Nat) :
    (fileFilterAccepts mimetype = false →
      uploadTransport mimetype size =
        some (.err 500 "Internal Server Error" "An unexpected error occurred")) ∧
    (fileFilterAccepts mimetype = true → size > 10 * 1024 * 1024 →
      uploadTransport mimetype size =
        some (.err 400 "File Error" "File size too large. Maximum size is 10MB.")) ∧
    (fileFilterAccepts mimetype = true → size ≤ 10 * 1024 * 1024 →
      uploadTransport mimetype size = none) := by
  refine ⟨?_, ?_, ?_⟩
  · intro h
    simp [uploadTransport, multerFileCheck, errorMiddleware, h]
  · intro h hs
    simp [uploadTransport, multerFileCheck, errorMiddleware, h, hs]
  · intro h hs
    simp [uploadTransport, multerFileCheck, h, Nat.not_lt.mpr hs]

theorem upload_transport_amended_witness :
    (fileFilterAccepts "image/gif" = false ∧
      uploadTransport "image/gif" 5 =
        some (.err 500 "Internal Server Error" "An unexpected error occurred")) ∧
    (fileFilterAccepts "application/pdf" = true ∧
      10 * 1024 * 1024 + 1 > 10 * 1024 * 1024 ∧
      uploadTransport "application/pdf" (10 * 1024 * 1024 + 1) =
        some (.err 400 "File Error" "File size too large. Maximum size is 10MB.")) ∧
    (fileFilterAccepts "text/plain" = true ∧ (5 : Nat) ≤ 10 * 1024 * 1024 ∧
      uploadTransport "text/plain" 5 = none) :=
  ⟨⟨by decide, (upload_transport_amended _ _).1 (by decide)⟩,
   ⟨by decide, by decide, (upload_transport_amended _ _).2.1 (by decide) (by decide)⟩,
   ⟨by decide, by decide, (upload_transport_amended _ _).2.2 (by decide) (by decide)⟩⟩

/-- C5: when the extraction step succeeds but yields an empty or
whitespace-only text, `POST /upload` replies 400 with the
`Processing Error` body (the spec's `ExtractionError`) and its
"Could not extract text from the uploaded file" message, the temporary
file is already deleted, and the generation oracle is never invoked. -/
theorem upload_empty_extraction (f : FileInfo) (query : Option String)
    (pdfExtract : Except Unit String) (gen : String → Except Unit String)
    (parse : String → Option AnalysisData) (now : String) (e : String)
    (hext : extractText f pdfExtract = .ok e) (he : jsTrim e = "") :
    uploadHandler (some f) query pdfExtract gen parse now =
      (.err 400 "Processing Error" "Could not extract text from the uploaded file",
       { fileExists := false, oracleCalled := false }) := by
  simp [uploadHandler, uploadBody, hext, unlinkSync, he]

theorem upload_empty_extraction_witness :
    extractText ⟨"empty.txt", "text/plain", 3, "   "⟩ (.ok "") = .ok "   " ∧
    jsTrim "   " = "" ∧
    uploadHandler (some ⟨"empty.txt", "text/plain", 3, "   "⟩) none (.ok "")
        (fun _ => .error ()) (fun _ => none) "now" =
      (.err 400 "Processing Error" "Could not extract text from the uploaded file",
       { fileExists := false, oracleCalled := false }) :=
  ⟨rfl, rfl, upload_empty_extraction _ _ _ _ _ _ _ rfl rfl⟩

/-- C7: whatever the mimetype, the behaviour of the PDF extractor, the
generation oracle and `JSON.parse`, and whichever exit path the `/upload`
handler takes (no file, extraction throw, empty text, oracle throw, parse
failure, success), the temporary upload file no longer exists when the
handler finishes. -/
theorem upload_cleanup (file : Option FileInfo) (query : Option String)
    (pdfExtract : Except Unit String) (gen : String → Except Unit String)
    (parse : String → Option AnalysisData) (now : String) :
    (uploadHandler file query pdfExtract gen parse now).2.fileExists = false := by
  rcases file with _ | f
  · rfl
  · simp only [uploadHandler, uploadBody, Option.isSome_some, unlinkSync]
    cases hext : extractText f pdfExtract with
    | error u => simp
    | ok e =>
      simp only [if_pos rfl]
      by_cases he : jsTrim e = ""
      · simp [he]
      · simp only [he, if_neg, ite_false]
        cases hgen : gen (buildLegalAnalysisPrompt
            (if e.length > 10000 then jsSubstring e 10000 ++ "..." else e) query) with
        | error u => simp [hgen]
        | ok rt =>
          cases hp : parse (cleanText rt) with
          | none => simp [hgen, hp]
          | some d => simp [hgen, hp]

theorem foldl_bumpCount {α : Type} (key : α → String) (l : List α) (c : ChartCounts) :
    l.foldl (fun acc a => bumpCount acc (key a)) c =
      ⟨c.high + l.countP (fun a => key a == "high"),
       c.medium + l.countP (fun a => key a == "medium"),
       c.low + l.countP (fun a => key a == "low")⟩ := by
  induction l generalizing c with
  | nil => simp
  | cons a l ih =>
    rw [List.foldl_cons, ih]
    simp only [List.countP_cons, bumpCount]
    by_cases h1 : key a = "high"
    · simp [h1, ChartCounts.mk.injEq]
      omega
    · by_cases h2 : key a = "medium"
      · simp [h1, h2, ChartCounts.mk.injEq]
        omega
      · by_cases h3 : key a = "low"
        · simp [h1, h2, h3, ChartCounts.mk.injEq]
          omega
        · simp [h1, h2, h3]

/-- C9: the bar chart's `data` array is the list of risk-factor counts
whose `risk` field is `high`, `medium`, `low`, in that order; the donut
chart's `data` array is the list of action-item counts by `priority` in
the same order, all zeros when `actionItems` is absent; and a result with
exactly one high-risk factor yields bar data `[1, 0, 0]`. -/
theorem charts_count_by_level (factors : List RiskFactor) (items : List ActionItem) :
    violationsChartData factors =
      [factors.countP (fun f => f.risk == "high"),
       factors.countP (fun f => f.risk == "medium"),
       factors.countP (fun f => f.risk == "low")] ∧
    penaltyChartData none = [0, 0, 0] ∧
    penaltyChartData (some items) =
      [items.countP (fun a => a.priority == "high"),
       items.countP (fun a => a.priority == "medium"),
       items.countP (fun a => a.priority == "low")] ∧
    (∀ f : RiskFactor, f.risk = "high" → violationsChartData [f] = [1, 0, 0]) := by
  refine ⟨?_, rfl, ?_, ?_⟩
  · simp [violationsChartData, riskCounts, foldl_bumpCount]
  · simp [penaltyChartData, actionCounts, foldl_bumpCount]
  · intro f hf
    simp [violationsChartData, riskCounts, foldl_bumpCount, List.countP_cons, hf, bumpCount]

theorem charts_count_by_level_witness :
    (RiskFactor.mk "c" "high" "e" "i").risk = "high" ∧
    violationsChartData [RiskFactor.mk "c" "high" "e" "i"] = [1, 0, 0] :=
  ⟨rfl, (charts_count_by_level [] []).2.2.2 (RiskFactor.mk "c" "high" "e" "i") rfl⟩

/-- C1 counterexample: a `POST /upload` whose oracle reply parses to a
JSON object with neither `simplified` nor `riskAssessment` is answered
with a 200 success reply that passes the malformed object straight
through — the handler has no structure check, contradicting the claim
that both endpoints reply 500. -/
theorem upload_missing_fields_returns_200 :
    (uploadHandler (some ⟨"doc.txt", "text/plain", 5, "hello"⟩) none (.ok "")
        (fun _ => .ok "\x7b\x7d") (fun _ => some ⟨none, none, none, none, none⟩) "now").1 =
      .ok ⟨none, none, none, none, none⟩
        { timestamp := "now", textLength := 5, hasQuery := none,
          fileName := some "doc.txt", fileSize := some 5 } ∧
    HttpResult.status
        ((uploadHandler (some ⟨"doc.txt", "text/plain", 5, "hello"⟩) none (.ok "")
          (fun _ => .ok "\x7b\x7d") (fun _ => some ⟨none, none, none, none, none⟩) "now").1) =
      200 := ⟨rfl, rfl⟩

/-- C1 amended: only `POST /analyze` validates the parsed oracle object:
a reply whose `simplified` is missing (or empty, JS falsiness) or whose
`riskAssessment` is missing gets the 500 `Invalid analysis response
structure` reply there, while `POST /upload` performs no such check and
returns 200 with the malformed object spread into the body. -/
theorem schema_check_amended
    (query : Option String) (gen : String → Except Unit String)
    (parse : String → Option AnalysisData) (now rt : String) (d : AnalysisData)
    (hmiss : strTruthy d.simplified = false ∨ d.riskAssessment = none) :
    (∀ t : String, t ≠ "" → t.length ≤ 10000 →
      gen (buildLegalAnalysisPrompt t query) = .ok rt →
      parse (cleanText rt) = some d →
      analyzeHandler (some t) query gen parse now =
        .err 500 "API Processing Error" "Invalid analysis response structure") ∧
    (∀ f : FileInfo, ∀ pdfExtract : Except Unit String, ∀ e : String,
      extractText f pdfExtract = .ok e → jsTrim e ≠ "" → e.length ≤ 10000 →
      gen (buildLegalAnalysisPrompt e query) = .ok rt →
      parse (cleanText rt) = some d →
      (uploadHandler (some f) query pdfExtract gen parse now).1 =
        .ok d { timestamp := now, fileName := some f.originalname,
                fileSize := some f.size, textLength := e.length, hasQuery := none }) := by
  constructor
  · intro t ht hlen hg hp
    have hmiss' : (!strTruthy d.simplified || d.riskAssessment.isNone) = true := by
      rcases hmiss with h | h
      · simp [h]
      · simp [h]
    have hout : strTruthy (some t) = true := by simp [strTruthy, ht]
    simp [analyzeHandler, analyzeAfterValidation, hout, Nat.not_lt.mpr hlen, hg, hp, hmiss']
  · intro f pdfExtract e hext he hlen hg hp
    simp [uploadHandler, uploadBody, hext, unlinkSync, he,
      Nat.not_lt.mpr hlen, hg, hp]

theorem schema_check_amended_witness :
    (strTruthy (AnalysisData.mk none none none none none).simplified = false ∨
      (AnalysisData.mk none none none none none).riskAssessment = none) ∧
    (("hello" : String) ≠ "" ∧ ("hello" : String).length ≤ 10000 ∧
      analyzeHandler (some "hello") none (fun _ => .ok "\x7b\x7d")
          (fun _ => some ⟨none, none, none, none, none⟩) "now" =
        .err 500 "API Processing Error" "Invalid analysis response structure") ∧
    (extractText ⟨"doc.txt", "text/plain", 5, "hello"⟩ (.ok "") = .ok "hello" ∧
      jsTrim "hello" ≠ "" ∧
      (uploadHandler (some ⟨"doc.txt", "text/plain", 5, "hello"⟩) none (.ok "")
          (fun _ => .ok "\x7b\x7d") (fun _ => some ⟨none, none, none, none, none⟩) "now").1 =
        .ok ⟨none, none, none, none, none⟩
          { timestamp := "now", fileName := some "doc.txt", fileSize := some 5,
            textLength := ("hello" : String).length, hasQuery := none }) := by
  refine ⟨Or.inl rfl, ⟨by decide, by decide, ?_⟩, ⟨rfl, by decide, ?_⟩⟩
  · exact (schema_check_amended none (fun _ => .ok "\x7b\x7d")
      (fun _ => some ⟨none, none, none, none, none⟩) "now" "\x7b\x7d"
      ⟨none, none, none, none, none⟩ (Or.inl rfl)).1 "hello" (by decide) (by decide) rfl rfl
  · exact (schema_check_amended none (fun _ => .ok "\x7b\x7d")
      (fun _ => some ⟨none, none, none, none, none⟩) "now" "\x7b\x7d"
      ⟨none, none, none, none, none⟩ (Or.inl rfl)).2
      ⟨"doc.txt", "text/plain", 5, "hello"⟩ (.ok "") "hello" rfl (by decide) (by decide) rfl rfl

theorem truncated_length (s : String) (h : s.length > 10000) :
    (jsSubstring s 10000 ++ "...").length = 10003 := by
  have hs : s.data.length = s.length := rfl
  have h3 : ("..." : String).length = 3 := rfl
  rw [String.length_append, jsSubstring, String.length_mk, List.length_take, h3,
    min_eq_left (by omega)]

/-- C2: on `POST /upload`, an extracted text longer than 10000 characters
is replaced by its first 10000 characters plus the `...` truncation
marker before the prompt is built (the oracle is invoked on the prompt of
the truncated text), and `metadata.textLength` of the success reply is
the length of that truncated text — 10003 with the marker — rather than
the original extracted length. -/
theorem upload_truncation (f : FileInfo) (query : Option String)
    (pdfExtract : Except Unit String) (gen : String → Except Unit String)
    (parse : String → Option AnalysisData) (now rt : String) (d : AnalysisData)
    (hmime : f.mimetype = "text/plain")
    (hlen : f.content.length > 10000)
    (htrim : jsTrim f.content ≠ "")
    (hg : gen (buildLegalAnalysisPrompt (jsSubstring f.content 10000 ++ "...") query) = .ok rt)
    (hp : parse (cleanText rt) = some d) :
    (uploadHandler (some f) query pdfExtract gen parse now).1 =
      .ok d { timestamp := now, fileName := some f.originalname,
              fileSize := some f.size,
              textLength := (jsSubstring f.content 10000 ++ "...").length,
              hasQuery := none } ∧
    (jsSubstring f.content 10000 ++ "...").length = 10003 := by
  have hext : extractText f pdfExtract = .ok f.content := by
    simp [extractText, hmime]
  refine ⟨?_, truncated_length _ hlen⟩
  simp [uploadHandler, uploadBody, hext, unlinkSync, htrim, hlen, hg, hp]

theorem dropWhile_replicate_char (n : Nat) :
    List.dropWhile Char.isWhitespace (List.replicate n 'a') = List.replicate n 'a' := by
  cases n with
  | zero => rfl
  | succ n => simp [List.replicate_succ, List.dropWhile_cons]

theorem jsTrim_replicate (n : Nat) :
    jsTrim (String.mk (List.replicate n 'a')) = String.mk (List.replicate n 'a') := by
  simp [jsTrim, trimChars, List.reverse_replicate, dropWhile_replicate_char]

theorem upload_truncation_witness :
    (FileInfo.mk "big.txt" "text/plain" 7 (String.mk (List.replicate 10001 'a'))).mimetype =
        "text/plain" ∧
    (String.mk (List.replicate 10001 'a')).length > 10000 ∧
    jsTrim (String.mk (List.replicate 10001 'a')) ≠ "" ∧
    ((uploadHandler (some ⟨"big.txt", "text/plain", 7, String.mk (List.replicate 10001 'a')⟩)
        none (.ok "")
        (fun _ => .ok "\x7b\x7d") (fun _ => some ⟨some "s", none, none, none, none⟩) "now").1 =
      .ok ⟨some "s", none, none, none, none⟩
        { timestamp := "now", fileName := some "big.txt", fileSize := some 7,
          textLength :=
            (jsSubstring (String.mk (List.replicate 10001 'a')) 10000 ++ "...").length,
          hasQuery := none } ∧
    (jsSubstring (String.mk (List.replicate 10001 'a')) 10000 ++ "...").length = 10003) := by
  have hlen : (String.mk (List.replicate 10001 'a')).length > 10000 := by
    rw [length_string_mk, List.length_replicate]
    decide
  have htrim : jsTrim (String.mk (List.replicate 10001 'a')) ≠ "" := by
    rw [jsTrim_replicate]
    intro h
    have := congrArg String.length h
    rw [length_string_mk, List.length_replicate] at this
    exact absurd this (by decide)
  exact ⟨rfl, hlen, htrim,
    upload_truncation ⟨"big.txt", "text/plain", 7, String.mk (List.replicate 10001 'a')⟩
      none (.ok "") (fun _ => .ok "\x7b\x7d")
      (fun _ => some ⟨some "s", none, none, none, none⟩) "now" "\x7b\x7d"
      ⟨some "s", none, none, none, none⟩ rfl hlen htrim rfl rfl⟩

theorem removeFences_ticks (rest : List Char) (h : ∀ r, rest ≠ '\n' :: r) :
    removeFences ('`' :: '`' :: '`' :: rest) = removeFences rest := by
  rcases rest with _ | ⟨x, r⟩
  · rfl
  · exact removeFences.eq_2 _ (fun r1 hr1 => h r1 hr1)

theorem removeFences_cons (c : Char) (cs : List Char)
    (h : ∀ r, c :: cs ≠ '`' :: '`' :: '`' :: r) :
    removeFences (c :: cs) = c :: removeFences cs := by
  refine removeFences.eq_3 c cs ?_ ?_
  · intro r hc hcs
    exact h ('\n' :: r) (by rw [hc, hcs])
  · intro r hc hcs
    exact h r (by rw [hc, hcs])

theorem removeFences_append_ticks (m : List Char) :
    removeFences (m ++ ['`', '`', '`']) = removeFences m := by
  induction m using removeFences.induct with
  | case1 rest ih =>
    simpa only [List.cons_append, removeFences.eq_1] using ih
  | case2 rest h ih =>
    rcases rest with _ | ⟨x, r⟩
    · rfl
    · have hx : x ≠ '\n' := fun hx => h r (by rw [hx])
      rw [List.cons_append, List.cons_append, List.cons_append,
        removeFences_ticks _ (by rintro r1 hr1; exact hx (by injection hr1)),
        removeFences_ticks _ (fun r1 hr1 => h r1 hr1)]
      exact ih
  | case3 c cs h1 h2 ih =>
    have hshape : ∀ r, c :: cs ≠ '`' :: '`' :: '`' :: r := by
      intro r hr
      injection hr with e1 e2
      rcases cs with _ | ⟨a, as⟩
      · exact absurd e2 (by simp)
      · injection e2 with f1 f2
        exact h2 r e1 (by rw [f1, f2])
    by_cases hsh : ∀ r, c :: (cs ++ ['`', '`', '`']) ≠ '`' :: '`' :: '`' :: r
    · rw [List.cons_append, removeFences_cons _ _ hsh, removeFences_cons _ _ hshape, ih]
    · push_neg at hsh
      obtain ⟨r, hr⟩ := hsh
      have hc : c = '`' := by injection hr
      subst hc
      rcases cs with _ | ⟨a, as⟩
      · rfl
      · have ha : a = '`' := by
          injection hr with _ h'
          rcases as with _ | ⟨b, bs⟩
          · injection h'
          · injection h'
        subst ha
        rcases as with _ | ⟨b, bs⟩
        · rfl
        · have hb : b = '`' := by
            injection hr with _ h'
            injection h' with _ h''
            injection h''
          exact absurd (hshape bs) (by simp [hb])
  | case4 => rfl

theorem noNl_prefix_of_append (p : List Char) :
    ∀ l r : List Char, '\n' ∉ p → p <+: l ++ '\n' :: r → p <+: l := by
  induction p with
  | nil =>
    intro l r _ _
    exact List.nil_prefix
  | cons a p ih =>
    intro l r hn h
    cases l with
    | nil =>
      rw [List.nil_append, List.cons_prefix_cons] at h
      obtain ⟨ha, -⟩ := h
      subst ha
      exact absurd (List.mem_cons_self _ _) hn
    | cons b l =>
      rw [List.cons_append, List.cons_prefix_cons] at h
      rw [List.cons_prefix_cons]
      exact ⟨h.1, ih l r (fun hm => hn (List.mem_cons_of_mem _ hm)) h.2⟩

theorem removeFences_append_nl_ticks (m : List Char) :
    removeFences (m ++ ['\n', '`', '`', '`']) = removeFences m ++ ['\n'] ∨
    removeFences (m ++ ['\n', '`', '`', '`']) = removeFences m := by
  induction m using removeFences.induct with
  | case1 rest ih =>
    simpa only [List.cons_append, removeFences.eq_1] using ih
  | case2 rest h ih =>
    rcases rest with _ | ⟨x, r⟩
    · exact Or.inr rfl
    · have hx : x ≠ '\n' := fun hx => h r (by rw [hx])
      rw [List.cons_append, List.cons_append, List.cons_append,
        removeFences_ticks _ (by rintro r1 hr1; exact hx (by injection hr1)),
        removeFences_ticks _ (fun r1 hr1 => h r1 hr1)]
      simpa only [List.cons_append] using ih
  | case3 c cs h1 h2 ih =>
    have hshape : ∀ r, c :: cs ≠ '`' :: '`' :: '`' :: r := by
      intro r hr
      injection hr with e1 e2
      rcases cs with _ | ⟨a, as⟩
      · exact absurd e2 (by simp)
      · injection e2 with f1 f2
        exact h2 r e1 (by rw [f1, f2])
    have hshape2 : ∀ r, c :: (cs ++ ['\n', '`', '`', '`']) ≠ '`' :: '`' :: '`' :: r := by
      intro r hr
      have hp : ['`', '`', '`'] <+: (c :: cs) ++ '\n' :: ['`', '`', '`'] := by
        refine ⟨r, ?_⟩
        simpa only [List.cons_append] using hr.symm
      obtain ⟨r2, hr2⟩ := noNl_prefix_of_append ['`', '`', '`'] (c :: cs) ['`', '`', '`']
        (by decide) hp
      exact hshape r2 hr2.symm
    rw [List.cons_append, removeFences_cons _ _ hshape2, removeFences_cons _ _ hshape]
    rcases ih with ih | ih
    · exact Or.inl (by rw [ih, List.cons_append])
    · exact Or.inr (by rw [ih])
  | case4 => exact Or.inl rfl

theorem removeJsonFences_pat (rest : List Char) (h : ∀ r, rest ≠ '\n' :: r) :
    removeJsonFences ('`' :: '`' :: '`' :: 'j' :: 's' :: 'o' :: 'n' :: rest) =
      removeJsonFences rest := by
  rcases rest with _ | ⟨x, r⟩
  · rfl
  · exact removeJsonFences.eq_2 _ (fun r1 hr1 => h r1 hr1)

theorem removeJsonFences_cons (c : Char) (cs : List Char)
    (h : ¬ (['`', '`', '`', 'j', 's', 'o', 'n'] <+: c :: cs)) :
    removeJsonFences (c :: cs) = c :: removeJsonFences cs := by
  refine removeJsonFences.eq_3 c cs ?_ ?_
  · intro r hc hcs
    exact h ⟨'\n' :: r, by simp [hc, hcs]⟩
  · intro r hc hcs
    exact h ⟨r, by simp [hc, hcs]⟩

theorem removeJsonFences_append_tail (m : List Char) :
    removeJsonFences (m ++ ['\n', '`', '`', '`']) =
      removeJsonFences m ++ ['\n', '`', '`', '`'] ∨
    removeJsonFences (m ++ ['\n', '`', '`', '`']) =
      removeJsonFences m ++ ['`', '`', '`'] := by
  induction m using removeJsonFences.induct with
  | case1 rest ih =>
    simpa only [List.cons_append, removeJsonFences.eq_1] using ih
  | case2 rest h ih =>
    rcases rest with _ | ⟨x, r⟩
    · exact Or.inr rfl
    · have hx : x ≠ '\n' := fun hx => h r (by rw [hx])
      simp only [List.cons_append]
      rw [removeJsonFences_pat _ (by rintro r1 hr1; exact hx (by injection hr1)),
        removeJsonFences_pat _ (fun r1 hr1 => h r1 hr1)]
      simpa only [List.cons_append] using ih
  | case3 c cs h1 h2 ih =>
    have hshape : ¬ (['`', '`', '`', 'j', 's', 'o', 'n'] <+: c :: cs) := by
      rintro ⟨r, hr⟩
      injection hr with e1 e2
      exact h2 r e1.symm (by simpa using e2.symm)
    have hshape2 : ¬ (['`', '`', '`', 'j', 's', 'o', 'n'] <+: c :: (cs ++ ['\n', '`', '`', '`'])) := by
      intro hp
      have hp' : ['`', '`', '`', 'j', 's', 'o', 'n'] <+: (c :: cs) ++ '\n' :: ['`', '`', '`'] := by
        simpa only [List.cons_append] using hp
      exact hshape (noNl_prefix_of_append _ _ _ (by decide) hp')
    rw [List.cons_append, removeJsonFences_cons _ _ hshape2, removeJsonFences_cons _ _ hshape]
    rcases ih with ih | ih
    · exact Or.inl (by rw [ih, List.cons_append])
    · exact Or.inr (by rw [ih, List.cons_append])
  | case4 => exact Or.inl rfl

theorem trimChars_append_nl (l : List Char) : trimChars (l ++ ['\n']) = trimChars l := by
  unfold trimChars
  rw [List.reverse_append]
  simp [List.dropWhile_cons]

/-- C6: the parse-preprocessing step of the service recovers the same
string — hence `JSON.parse` recovers the same object — from an oracle
reply wrapped in Markdown code fences as from the raw, fence-free reply:
for every string `s`, `cleanText` applied to `"```json\n" ++ s ++ "\n```"`
equals `cleanText s`. -/
theorem cleanText_fenceWrapped (s : String) : cleanText (fenceWrapped s) = cleanText s := by
  have hdata : (fenceWrapped s).data =
      '`' :: '`' :: '`' :: 'j' :: 's' :: 'o' :: 'n' :: '\n' ::
        (s.data ++ ['\n', '`', '`', '`']) := by
    unfold fenceWrapped
    rw [String.data_append, String.data_append]
    have h1 : ("```json\n" : String).data = ['`', '`', '`', 'j', 's', 'o', 'n', '\n'] := by
      decide
    have h2 : ("\n```" : String).data = ['\n', '`', '`', '`'] := by decide
    rw [h1, h2]
    simp
  unfold cleanText jsTrim
  rw [hdata, removeJsonFences.eq_1]
  rcases removeJsonFences_append_tail s.data with h | h
  · rw [h]
    rcases removeFences_append_nl_ticks (removeJsonFences s.data) with h2 | h2
    · rw [h2, trimChars_append_nl]
    · rw [h2]
  · rw [h, removeFences_append_ticks]
